import Mathlib

/-!
Verification development for the smart-lbss repository: a per-unit battery
controller (src/BatteryController/battery_controller.c) and a microgrid
coordinator (src/uGridController/ugrid_controller.c).

Floating-point arithmetic of the C sources is embedded over ℚ with the
source's decimal constants as exact rationals.  Random noise
(`get_random_noise`) is parameterised by the raw `random_rand() % 100`
draw, and the external regression models (generated headers, consumed as
pure functions) are parameterised by their scalar output.
-/

namespace SmartLBSS

/-- Lifecycle states of one battery unit (battery_controller.c, `battery_state_t`). -/
inductive battery_state_t where
  | STATE_INIT
  | STATE_RUNNING
  | STATE_ISOLATED
  deriving DecidableEq, Repr

open battery_state_t

/-- Responses of the CoAP handlers that the claims mention. -/
inductive RespCode where
  | created
  | changed
  | forbidden
  | badRequest
  | serviceUnavailable
  deriving DecidableEq, Repr

/-- `SCALED_CAPACITY_AH` (200 Ah). -/
def SCALED_CAPACITY_AH : ℚ := 200

/-- `BAT_MAX_POWER_W` = 10 kW in watts (project-conf.h). -/
def BAT_MAX_POWER_W : ℚ := 10000

/-- `ML_WINDOW` of the unit's feature buffer. -/
def ML_WINDOW : ℕ := 20

/-- `N_FEATURES` per buffer slot. -/
def N_FEATURES : ℕ := 4

/-- First clamp step of the C idiom `if (x > hi) x = hi;`. -/
def clamp_hi (hi x : ℚ) : ℚ := if x > hi then hi else x

/-- Second clamp step of the C idiom `if (x < lo) x = lo;`. -/
def clamp_lo (lo x : ℚ) : ℚ := if x < lo then lo else x

/-- `get_random_noise(magnitude)`: `((random_rand() % 100) / 50.0f - 1.0f) * magnitude`,
parameterised by the raw draw `r`. -/
def get_random_noise (r : ℕ) (magnitude : ℚ) : ℚ :=
  (((r % 100 : ℕ) : ℚ) / 50 - 1) * magnitude

/-- The battery unit's mutable globals (battery_controller.c, lines 31-61). -/
structure UState where
  current_state : battery_state_t
  soh_critical : ℚ
  soh_warning : ℚ
  temp_critical : ℚ
  temp_warning : ℚ
  cycles_warning : ℕ
  bat_voltage : ℚ
  bat_current : ℚ
  bat_temp : ℚ
  bat_soc : ℚ
  bat_soh : ℚ
  bat_capacity_ah : ℚ
  power_setpoint : ℚ
  battery_id : ℤ
  charge_cycles : ℕ
  total_ah_throughput : ℚ
  peak_temp_reached : ℚ
  was_charging : Bool
  ml_buffer : List ℚ
  deriving DecidableEq, Repr

/-- Discharge block of the SoC-based power admission (update_sensors_and_buffer,
lines 149-166): discharge forbidden at/below the 2% cutoff and linearly
derated below 10% (the inner `if(scale < 0) scale = 0` is `clamp_lo 0`). -/
def admit_discharge (soc p : ℚ) : ℚ :=
  if p < -(1/2) then
    if soc ≤ 2/100 then 0
    else if soc < 10/100 then p * clamp_lo 0 ((soc - 2/100) / (10/100 - 2/100))
    else p
  else p

/-- Charge block of the SoC-based power admission (lines 168-185), applied to
the effective power left by the discharge block: charge forbidden at/above
the 98% cutoff and linearly derated above 90%. -/
def admit_charge (soc e1 : ℚ) : ℚ :=
  if e1 > 1/2 then
    if soc ≥ 98/100 then 0
    else if soc > 90/100 then e1 * clamp_lo 0 ((98/100 - soc) / (98/100 - 90/100))
    else e1
  else e1

/-- SoC-based power admission (lines 142-188): the two blocks in sequence. -/
def admit_power (soc p : ℚ) : ℚ :=
  admit_charge soc (admit_discharge soc p)

/-- Physical model integration for one tick while `STATE_RUNNING`
(update_sensors_and_buffer, lines 115-287).  `r1`, `r2`, `r3` are the raw
random draws feeding the current, voltage and temperature noise. -/
def physical_update (r1 r2 r3 : ℕ) (s : UState) : UState :=
  let p := admit_power s.bat_soc s.power_setpoint
  let ocv := 3 + (42/10 - 3) * s.bat_soc
  let requested_current := if ocv > 1/10 then p / ocv else 0
  let current_noise := get_random_noise r1 (2/100 * |requested_current|)
  let i0 := requested_current + current_noise
  let max_current := SCALED_CAPACITY_AH * 15
  let i := clamp_lo (-max_current) (clamp_hi max_current i0)
  let v0 := ocv - i * (8/10000)
  let v1 := if s.bat_soc < 1/10 then v0 - (1/10 - s.bat_soc) * 2 else v0
  let v2 := if s.bat_soc > 9/10 then v1 + (s.bat_soc - 9/10) * (1/2) else v1
  let v := clamp_lo 3 (clamp_hi (42/10) v2) + get_random_noise r2 (1/100)
  let efficiency := if i > 0 then 92/100 else 1 / (92/100)
  let energy_joules := p * efficiency * 1
  let current_capacity_ah := SCALED_CAPACITY_AH * s.bat_soh
  let capacity_joules := current_capacity_ah * (37/10) * 3600
  let delta_soc := energy_joules / capacity_joules
  let soc0 := s.bat_soc + delta_soc
  let throughput := s.total_ah_throughput + |i| * (1 / 3600)
  let is_charging := i > 1/2
  let cycles :=
    if is_charging ∧ s.was_charging = false ∧ soc0 < 1/2
    then s.charge_cycles + 1 else s.charge_cycles
  let soc := clamp_lo 0 (clamp_hi 1 soc0)
  let heat_generated := i * i * (8/10000) * 1
  let heat_dissipated := 200 * (s.bat_temp - 25) * 1
  let t0 := s.bat_temp + (heat_generated - heat_dissipated) / 5000
            + get_random_noise r3 (1/2)
  let peak := if t0 > s.peak_temp_reached then t0 else s.peak_temp_reached
  let t := clamp_hi 80 (clamp_lo 0 t0)
  let cycle_degradation := (cycles : ℚ) * (8/10000)
  let throughput_degradation := throughput * (5/100000)
  let temp_degradation0 := if t > 40 then (t - 40) * (1/10000) else 0
  let temp_degradation :=
    if t > 55 then temp_degradation0 + (t - 55) * (5/10000) else temp_degradation0
  let soc_stress0 := if soc < 15/100 then (15/100 - soc) * (2/10000) else 0
  let soc_stress := if soc > 95/100 then (soc - 95/100) * (1/10000) else soc_stress0
  let c_rate := |i| / SCALED_CAPACITY_AH
  let c_rate_degradation := if c_rate > 3 then (c_rate - 3) * (3/100000) else 0
  let total_degradation := cycle_degradation + throughput_degradation
        + temp_degradation + soc_stress + c_rate_degradation
  let soh := clamp_lo (1/2) (clamp_hi 1 (s.bat_soh - total_degradation * 1))
  { s with
    power_setpoint := p,
    bat_current := i,
    bat_voltage := v,
    bat_soc := soc,
    total_ah_throughput := throughput,
    charge_cycles := cycles,
    was_charging := is_charging,
    bat_temp := t,
    peak_temp_reached := peak,
    bat_soh := soh,
    bat_capacity_ah := SCALED_CAPACITY_AH * soh }

/-- Unconditional tail of update_sensors_and_buffer (lines 289-297): shift the
feature window left one slot and append the four normalized features. -/
def push_ml_features (s : UState) : UState :=
  { s with ml_buffer := s.ml_buffer.drop N_FEATURES ++
      [ s.bat_voltage / (42/10),
        ((s.bat_current / 100) + 10) / 20,
        s.bat_temp / 80,
        s.bat_soc ] }

/-- `update_sensors_and_buffer`: physical model while running, then the
feature-buffer shift in every state. -/
def update_sensors_and_buffer (r1 r2 r3 : ℕ) (s : UState) : UState :=
  push_ml_features (if s.current_state = STATE_RUNNING then physical_update r1 r2 r3 s else s)

/-- Health-estimate blend and low-pass filter at the head of `check_safety`
(lines 301-315): the new authoritative SoH, given `predicted`, the scalar
returned by the external regression `battery_soh_regress1`. -/
def filtered_soh (predicted : ℚ) (s : UState) : ℚ :=
  let combined0 := predicted * (7/10) + s.bat_soh * (3/10)
  let combined1 :=
    if s.bat_temp > 45 then combined0 - (s.bat_temp - 45) * (1/1000) else combined0
  let combined2 :=
    if s.bat_soc < 1/10 then combined1 - (1/10 - s.bat_soc) * (2/100) else combined1
  let combined := clamp_lo (1/2) (clamp_hi 1 combined2)
  s.bat_soh * (95/100) + combined * (5/100)

/-- `check_safety` (lines 300-361): update SoH and capacity, then evaluate
the trip thresholds on the updated SoH.  Returns the new state and whether a
telemetry push (`coap_notify_observers`) was emitted. -/
def check_safety (predicted : ℚ) (s : UState) : UState × Bool :=
  let soh := filtered_soh predicted s
  let s1 := { s with bat_soh := soh, bat_capacity_ah := SCALED_CAPACITY_AH * soh }
  if soh < s.soh_critical ∨ s.bat_temp > s.temp_critical then
    ({ s1 with current_state := STATE_ISOLATED, power_setpoint := 0, bat_current := 0 }, true)
  else
    (s1, false)

/-- `res_power_put_handler` (lines 414-453).  The payload is abstracted by its
length `plen` and the value `pval` parsed by `atof`.  Returns the new state
and the CoAP response code. -/
def res_power_put_handler (plen : ℕ) (pval : ℚ) (s : UState) : UState × RespCode :=
  if s.current_state ≠ STATE_RUNNING then (s, RespCode.forbidden)
  else if 0 < plen ∧ plen < 32 then
    ({ s with power_setpoint := clamp_lo (-BAT_MAX_POWER_W) (clamp_hi BAT_MAX_POWER_W pval) },
     RespCode.changed)
  else (s, RespCode.badRequest)

/-- Field-level abstraction of the `strstr`-based JSON parsing in
`res_params_put_handler`: each optional field is present iff its key occurred
in the payload; `state_iso` records whether a `state` field whose string
value begins with "ISO" was present. -/
structure ParamsUpdate where
  soh_critical : Option ℚ
  soh_warning : Option ℚ
  temp_critical : Option ℚ
  temp_warning : Option ℚ
  cycles_warning : Option ℕ
  soc : Option ℚ
  soh : Option ℚ
  temp : Option ℚ
  capacity_ah : Option ℚ
  state_iso : Bool
  deriving DecidableEq, Repr

/-- Body of `res_params_put_handler` after the length check (lines 545-585):
thresholds and raw state variables are overwritten when present, then the
`state:"ISO"` directive forces isolation (and only isolation). -/
def apply_params_update (u : ParamsUpdate) (s : UState) : UState :=
  let s1 := { s with
    soh_critical := u.soh_critical.getD s.soh_critical,
    soh_warning := u.soh_warning.getD s.soh_warning,
    temp_critical := u.temp_critical.getD s.temp_critical,
    temp_warning := u.temp_warning.getD s.temp_warning,
    cycles_warning := u.cycles_warning.getD s.cycles_warning,
    bat_soc := u.soc.getD s.bat_soc,
    bat_soh := u.soh.getD s.bat_soh,
    bat_temp := u.temp.getD s.bat_temp,
    bat_capacity_ah := u.capacity_ah.getD s.bat_capacity_ah }
  if u.state_iso then
    { s1 with current_state := STATE_ISOLATED, power_setpoint := 0, bat_current := 0 }
  else s1

/-- `res_params_put_handler` (lines 505-591): length check then field updates. -/
def res_params_put_handler (plen : ℕ) (u : ParamsUpdate) (s : UState) : UState × RespCode :=
  if plen = 0 ∨ 128 ≤ plen then (s, RespCode.badRequest)
  else (apply_params_update u s, RespCode.changed)

/-- Factory reset on the physical button while isolated (process thread,
lines 727-748). -/
def button_reset (s : UState) : UState :=
  { s with
    current_state := STATE_RUNNING,
    bat_soh := 1,
    bat_capacity_ah := SCALED_CAPACITY_AH,
    bat_temp := 25,
    power_setpoint := 0,
    charge_cycles := 0,
    total_ah_throughput := 0,
    peak_temp_reached := 25,
    was_charging := false }

/-- Events processed by the unit controller's main loop.  A tick carries the
regression output and the three raw noise draws of that tick; the two PUT
handlers carry the abstracted payload. -/
inductive Event where
  | tick (predicted : ℚ) (r1 r2 r3 : ℕ)
  | putPower (plen : ℕ) (pval : ℚ)
  | putParams (plen : ℕ) (u : ParamsUpdate)
  | buttonReset

/-- One main-loop event of the unit controller (process thread, lines
698-749): the tick runs the physical model unless isolated and the safety
check while running; the button reset only acts while isolated. -/
def step (e : Event) (s : UState) : UState :=
  match e with
  | Event.tick predicted r1 r2 r3 =>
      let s1 := if s.current_state ≠ STATE_ISOLATED then update_sensors_and_buffer r1 r2 r3 s else s
      if s1.current_state = STATE_RUNNING then (check_safety predicted s1).1 else s1
  | Event.putPower plen pval => (res_power_put_handler plen pval s).1
  | Event.putParams plen u => (res_params_put_handler plen u s).1
  | Event.buttonReset =>
      if s.current_state = STATE_ISOLATED then button_reset s else s

/-- Unit state at entry to the main loop: the initial values of the globals,
with `current_state` already `STATE_RUNNING` (the registration acknowledgment
is the only write before the loop) and the feature buffer filled with 0.5. -/
def init_state : UState :=
  { current_state := STATE_RUNNING,
    soh_critical := 75/100,
    soh_warning := 85/100,
    temp_critical := 60,
    temp_warning := 50,
    cycles_warning := 100,
    bat_voltage := 37/10,
    bat_current := 0,
    bat_temp := 25,
    bat_soc := 8/10,
    bat_soh := 1,
    bat_capacity_ah := SCALED_CAPACITY_AH,
    power_setpoint := 0,
    battery_id := 1,
    charge_cycles := 0,
    total_ah_throughput := 0,
    peak_temp_reached := 25,
    was_charging := false,
    ml_buffer := List.replicate (ML_WINDOW * N_FEATURES) (1/2) }

/-- States of the unit controller reachable from the start of the main loop. -/
inductive Reachable : UState → Prop where
  | init : Reachable init_state
  | next (s : UState) (e : Event) : Reachable s → Reachable (step e s)

/-! ## Coordinator (src/uGridController/ugrid_controller.c) -/

/-- `BAT_MAX_POWER_KW` (10 kW). -/
def BAT_MAX_POWER_KW : ℚ := 10

/-- `MAX_BATTERIES`. -/
def MAX_BATTERIES : ℕ := 5

/-- `K_FACT`. -/
def K_FACT : ℚ := 5/100

/-- `SOC_REF`. -/
def SOC_REF : ℚ := 1/2

/-- `LEARNING_RATE`. -/
def LEARNING_RATE : ℚ := 1/10

/-- `PGD_ITERATIONS`. -/
def PGD_ITERATIONS : ℕ := 100

/-- One registry entry (`battery_node_t`, ugrid_controller.c lines 26-45).
The opaque `coap_observee_t` handle is outside the message-level model. -/
structure battery_node_t where
  ip : ℕ
  active : Bool
  obs_requested : Bool
  current_soc : ℚ
  current_voltage : ℚ
  current_temp : ℚ
  current_soh : ℚ
  current_current : ℚ
  optimal_u : ℚ
  actual_power : ℚ
  state : String
  has_objective : Bool
  objective_power : ℚ
  last_update_time : ℕ
  deriving DecidableEq, Repr

/-- The four remotely settable cost parameters (lines 51-54). -/
structure MpcParams where
  alpha : ℚ
  beta : ℚ
  gama : ℚ
  price : ℚ
  deriving DecidableEq, Repr

/-- One projected-gradient update of one entry (run_mpc inner loop, lines
448-462): inactive, isolated and manually-overridden entries are skipped. -/
def pgd_update (p : MpcParams) (b : battery_node_t) : battery_node_t :=
  if b.active = false then b
  else if b.state = "ISO" then b
  else if b.has_objective = true then b
  else
    let u := b.optimal_u
    let soc_term := b.current_soc + K_FACT * u - SOC_REF
    let grad := p.alpha * p.price + 2 * p.beta * u + 2 * p.gama * K_FACT * soc_term
    { b with optimal_u := clamp_lo (-BAT_MAX_POWER_KW) (clamp_hi BAT_MAX_POWER_KW (u - LEARNING_RATE * grad)) }

/-- One PGD iteration over the fleet (lines 448-463). -/
def pgd_iter (p : MpcParams) (bs : List battery_node_t) : List battery_node_t :=
  bs.map (pgd_update p)

/-- Pre-loop pass of run_mpc (lines 432-444): for an active entry with a
manual objective, `optimal_u` is preset to the objective value. -/
def mpc_preset (b : battery_node_t) : battery_node_t :=
  if b.active = true ∧ b.has_objective = true then { b with optimal_u := b.objective_power } else b

/-- `run_mpc` (lines 402-504): objective presets followed by exactly
`PGD_ITERATIONS` fleet-wide gradient iterations. -/
def run_mpc (p : MpcParams) (bs : List battery_node_t) : List battery_node_t :=
  (pgd_iter p)^[PGD_ITERATIONS] (bs.map mpc_preset)

/-- Effective command (in kW) the dispatch loop sends to one entry (process
thread, lines 804-837): `none` when no command is sent (inactive or
isolated), otherwise the objective when present, else `optimal_u`. -/
def dispatch_cmd (b : battery_node_t) : Option ℚ :=
  if b.active = false then none
  else if b.state = "ISO" then none
  else some (if b.has_objective then b.objective_power else b.optimal_u)

/-- Fresh registry entry written by `res_reg_h` (lines 585-604). -/
def reg_default_entry (now ip : ℕ) : battery_node_t :=
  { ip := ip,
    active := true,
    obs_requested := false,
    current_soc := 1/2,
    current_voltage := 0,
    current_temp := 25,
    current_soh := 1,
    current_current := 0,
    optimal_u := 0,
    actual_power := 0,
    state := "INI",
    has_objective := false,
    objective_power := 0,
    last_update_time := now }

/-- `res_reg_h` (lines 580-620): the registry is the list of its first
`battery_count` slots; registration appends a default entry when the table
is not full and rejects with service-unavailable otherwise. -/
def res_reg_h (now ip : ℕ) (bats : List battery_node_t) : List battery_node_t × RespCode :=
  if bats.length < MAX_BATTERIES then
    (bats ++ [reg_default_entry now ip], RespCode.created)
  else
    (bats, RespCode.serviceUnavailable)

/-! ## Spec-side definitions and concrete instances used by the claims -/

/-- Modelled from the spec: `battery_soh_model.h` (the generated regression
consumed by `check_safety` as `battery_soh_regress1`) is not under src/; per
the spec its raw scalar output is clamped to [0,100] then scaled to [0,1]. -/
def battery_soh_regress1_output (raw : ℚ) : ℚ :=
  clamp_lo 0 (clamp_hi 100 raw) / 100

/-- The spec's formula for the combined health estimate: 0.7 × regression
estimate + 0.3 × model SoH, minus a linear temperature penalty above 45 °C
and a linear low-SoC penalty below 10 % SoC, clamped to [0.5, 1]. -/
def combined_health_spec (predicted soh temp soc : ℚ) : ℚ :=
  let temp_penalty := if temp > 45 then (temp - 45) * (1/1000) else 0
  let soc_penalty := if soc < 1/10 then (1/10 - soc) * (2/100) else 0
  max (min ((7/10) * predicted + (3/10) * soh - temp_penalty - soc_penalty) 1) (1/2)

/-- The spec's per-iteration scalar gradient step with projection:
`u ← clip(u − lr·(alpha·price + 2·beta·u + 2·gamma·k·(soc + k·u − soc_ref)), −max, +max)`. -/
def pgd_u_step (p : MpcParams) (soc u : ℚ) : ℚ :=
  clamp_lo (-BAT_MAX_POWER_KW) (clamp_hi BAT_MAX_POWER_KW
    (u - LEARNING_RATE *
      (p.alpha * p.price + 2 * p.beta * u + 2 * p.gama * K_FACT * (soc + K_FACT * u - SOC_REF))))

/-- A params payload whose only recognised content is `state:"ISO"`. -/
def params_iso_only : ParamsUpdate :=
  { soh_critical := none, soh_warning := none, temp_critical := none,
    temp_warning := none, cycles_warning := none, soc := none, soh := none,
    temp := none, capacity_ah := none, state_iso := true }

/-- A reachable isolated unit state: the initial state after one remote
`PUT dev/params` carrying `state:"ISO"`. -/
def s_iso : UState := step (Event.putParams 16 params_iso_only) init_state

/-- A running state with degraded SoH (0.80): under a healthy regression
estimate this trips the warning band but not the critical band. -/
def s_warn : UState := { init_state with bat_soh := 8/10 }

/-- A running state overheated to 70 °C: past the critical temperature. -/
def s_hot : UState := { init_state with bat_temp := 70 }

/-- Concrete cost parameters for witnesses. -/
def p_c : MpcParams := { alpha := 1, beta := 1, gama := 20, price := 1/4 }

/-- A concrete running registry entry with a manual objective of 3 kW whose
stored `optimal_u` (1 kW) differs from the objective. -/
def b_obj : battery_node_t :=
  { ip := 7, active := true, obs_requested := true, current_soc := 1/2,
    current_voltage := 37/10, current_temp := 25, current_soh := 1,
    current_current := 0, optimal_u := 1, actual_power := 0, state := "RUN",
    has_objective := true, objective_power := 3, last_update_time := 0 }

/-! ## Generic clamp lemmas -/

lemma clamp_lo_hi_mem (lo hi x : ℚ) (h : lo ≤ hi) :
    lo ≤ clamp_lo lo (clamp_hi hi x) ∧ clamp_lo lo (clamp_hi hi x) ≤ hi := by
  unfold clamp_lo clamp_hi
  split_ifs <;> constructor <;> linarith

lemma clamp_hi_lo_mem (lo hi x : ℚ) (h : lo ≤ hi) :
    lo ≤ clamp_hi hi (clamp_lo lo x) ∧ clamp_hi hi (clamp_lo lo x) ≤ hi := by
  unfold clamp_lo clamp_hi
  split_ifs <;> constructor <;> linarith

lemma clamp_lo_eq_max (lo x : ℚ) : clamp_lo lo x = max lo x := by
  unfold clamp_lo
  split_ifs with h
  · exact (max_eq_left h.le).symm
  · exact (max_eq_right (not_lt.mp h)).symm

lemma clamp_hi_eq_min (hi x : ℚ) : clamp_hi hi x = min hi x := by
  unfold clamp_hi
  split_ifs with h
  · exact (min_eq_left h.le).symm
  · exact (min_eq_right (not_lt.mp h)).symm

/-! ## Projection lemmas for the physical model -/

lemma physical_update_power (r1 r2 r3 : ℕ) (s : UState) :
    (physical_update r1 r2 r3 s).power_setpoint = admit_power s.bat_soc s.power_setpoint := rfl

lemma physical_update_state (r1 r2 r3 : ℕ) (s : UState) :
    (physical_update r1 r2 r3 s).current_state = s.current_state := rfl

lemma physical_update_soc_bounds (r1 r2 r3 : ℕ) (s : UState) :
    0 ≤ (physical_update r1 r2 r3 s).bat_soc ∧ (physical_update r1 r2 r3 s).bat_soc ≤ 1 := by
  obtain ⟨x, hx⟩ : ∃ x, (physical_update r1 r2 r3 s).bat_soc = clamp_lo 0 (clamp_hi 1 x) :=
    ⟨_, rfl⟩
  rw [hx]
  exact clamp_lo_hi_mem 0 1 x (by norm_num)

lemma physical_update_soh_bounds (r1 r2 r3 : ℕ) (s : UState) :
    1/2 ≤ (physical_update r1 r2 r3 s).bat_soh ∧ (physical_update r1 r2 r3 s).bat_soh ≤ 1 := by
  obtain ⟨x, hx⟩ : ∃ x, (physical_update r1 r2 r3 s).bat_soh = clamp_lo (1/2) (clamp_hi 1 x) :=
    ⟨_, rfl⟩
  rw [hx]
  exact clamp_lo_hi_mem (1/2) 1 x (by norm_num)

lemma physical_update_temp_bounds (r1 r2 r3 : ℕ) (s : UState) :
    0 ≤ (physical_update r1 r2 r3 s).bat_temp ∧ (physical_update r1 r2 r3 s).bat_temp ≤ 80 := by
  obtain ⟨x, hx⟩ : ∃ x, (physical_update r1 r2 r3 s).bat_temp = clamp_hi 80 (clamp_lo 0 x) :=
    ⟨_, rfl⟩
  rw [hx]
  exact clamp_hi_lo_mem 0 80 x (by norm_num)

lemma update_sensors_state (r1 r2 r3 : ℕ) (s : UState) :
    (update_sensors_and_buffer r1 r2 r3 s).current_state = s.current_state := by
  unfold update_sensors_and_buffer
  split <;> rfl

lemma update_sensors_power_running (r1 r2 r3 : ℕ) (s : UState)
    (hrun : s.current_state = STATE_RUNNING) :
    (update_sensors_and_buffer r1 r2 r3 s).power_setpoint
      = admit_power s.bat_soc s.power_setpoint := by
  unfold update_sensors_and_buffer
  rw [if_pos hrun]
  rfl

/-! ## Admission-control lemmas -/

lemma admit_charge_low (soc e1 : ℚ) (h : ¬(e1 > 1/2)) : admit_charge soc e1 = e1 := by
  unfold admit_charge
  rw [if_neg h]

lemma admit_power_empty (soc p : ℚ) (h1 : p < -(1/2)) (h2 : soc ≤ 2/100) :
    admit_power soc p = 0 := by
  unfold admit_power admit_discharge
  rw [if_pos h1, if_pos h2, admit_charge_low soc 0 (by norm_num)]

lemma admit_power_full (soc p : ℚ) (h1 : p > 1/2) (h2 : soc ≥ 98/100) :
    admit_power soc p = 0 := by
  unfold admit_power admit_discharge admit_charge
  rw [if_neg (show ¬(p < -(1/2)) by linarith), if_pos h1, if_pos h2]

lemma admit_power_derate_discharge (soc p : ℚ) (h1 : p < -(1/2))
    (h2 : 2/100 < soc) (h3 : soc < 10/100) :
    admit_power soc p = p * ((soc - 2/100) / (8/100)) := by
  have hscale : (0:ℚ) < (soc - 2/100) / (10/100 - 2/100) :=
    div_pos (by linarith) (by norm_num)
  have hcl : clamp_lo 0 ((soc - 2/100) / (10/100 - 2/100))
      = (soc - 2/100) / (10/100 - 2/100) := by
    unfold clamp_lo
    rw [if_neg (not_lt.mpr hscale.le)]
  unfold admit_power admit_discharge
  rw [if_pos h1, if_neg (not_le.mpr h2), if_pos h3, hcl,
    admit_charge_low soc _ (by nlinarith)]
  norm_num

lemma admit_power_derate_charge (soc p : ℚ) (h1 : p > 1/2)
    (h2 : 90/100 < soc) (h3 : soc < 98/100) :
    admit_power soc p = p * ((98/100 - soc) / (8/100)) := by
  have hscale : (0:ℚ) < (98/100 - soc) / (98/100 - 90/100) :=
    div_pos (by linarith) (by norm_num)
  have hcl : clamp_lo 0 ((98/100 - soc) / (98/100 - 90/100))
      = (98/100 - soc) / (98/100 - 90/100) := by
    unfold clamp_lo
    rw [if_neg (not_lt.mpr hscale.le)]
  unfold admit_power admit_discharge admit_charge
  rw [if_neg (show ¬(p < -(1/2)) by linarith), if_pos h1, if_neg (not_le.mpr h3),
    if_pos h2, hcl]
  norm_num

/-! ## Safety-check lemmas -/

lemma check_safety_soh (predicted : ℚ) (s : UState) :
    (check_safety predicted s).1.bat_soh = filtered_soh predicted s := by
  unfold check_safety
  dsimp only
  split <;> rfl

lemma check_safety_capacity (predicted : ℚ) (s : UState) :
    (check_safety predicted s).1.bat_capacity_ah
      = SCALED_CAPACITY_AH * filtered_soh predicted s := by
  unfold check_safety
  dsimp only
  split <;> rfl

lemma check_safety_soc (predicted : ℚ) (s : UState) :
    (check_safety predicted s).1.bat_soc = s.bat_soc := by
  unfold check_safety
  dsimp only
  split <;> rfl

lemma check_safety_state_cases (predicted : ℚ) (s : UState) :
    ((check_safety predicted s).1.current_state = STATE_ISOLATED ∧
      (check_safety predicted s).1.power_setpoint = 0)
    ∨ ((check_safety predicted s).1.current_state = s.current_state ∧
      (check_safety predicted s).1.power_setpoint = s.power_setpoint) := by
  unfold check_safety
  dsimp only
  split
  · exact Or.inl ⟨rfl, rfl⟩
  · exact Or.inr ⟨rfl, rfl⟩

lemma filtered_soh_bounds (predicted : ℚ) (s : UState)
    (h : 1/2 ≤ s.bat_soh ∧ s.bat_soh ≤ 1) :
    1/2 ≤ filtered_soh predicted s ∧ filtered_soh predicted s ≤ 1 := by
  unfold filtered_soh
  dsimp only
  obtain ⟨hc1, hc2⟩ := clamp_lo_hi_mem (1/2) 1
    (if s.bat_soc < 1/10 then
        (if s.bat_temp > 45 then
            predicted * (7/10) + s.bat_soh * (3/10) - (s.bat_temp - 45) * (1/1000)
          else predicted * (7/10) + s.bat_soh * (3/10)) - (1/10 - s.bat_soc) * (2/100)
      else
        if s.bat_temp > 45 then
          predicted * (7/10) + s.bat_soh * (3/10) - (s.bat_temp - 45) * (1/1000)
        else predicted * (7/10) + s.bat_soh * (3/10)) (by norm_num)
  constructor <;> nlinarith [h.1, h.2]

/-! ## Claim theorems: physical model (C3, C4) -/

/-- C3: for every starting state with SoC in [0,1], SoH in [0.5,1] and
temperature in [0,80], and every power setpoint (and every lifecycle state
and noise draw), one call of the physical-model tick update
`update_sensors_and_buffer` produces SoC in [0,1], SoH in [0.5,1] and
temperature in [0,80]. -/
theorem tick_update_bounds (r1 r2 r3 : ℕ) (s : UState)
    (hsoc : 0 ≤ s.bat_soc ∧ s.bat_soc ≤ 1)
    (hsoh : 1/2 ≤ s.bat_soh ∧ s.bat_soh ≤ 1)
    (htemp : 0 ≤ s.bat_temp ∧ s.bat_temp ≤ 80) :
    (0 ≤ (update_sensors_and_buffer r1 r2 r3 s).bat_soc ∧
      (update_sensors_and_buffer r1 r2 r3 s).bat_soc ≤ 1) ∧
    (1/2 ≤ (update_sensors_and_buffer r1 r2 r3 s).bat_soh ∧
      (update_sensors_and_buffer r1 r2 r3 s).bat_soh ≤ 1) ∧
    (0 ≤ (update_sensors_and_buffer r1 r2 r3 s).bat_temp ∧
      (update_sensors_and_buffer r1 r2 r3 s).bat_temp ≤ 80) := by
  unfold update_sensors_and_buffer
  by_cases hrun : s.current_state = STATE_RUNNING
  · rw [if_pos hrun]
    exact ⟨physical_update_soc_bounds r1 r2 r3 s, physical_update_soh_bounds r1 r2 r3 s,
      physical_update_temp_bounds r1 r2 r3 s⟩
  · rw [if_neg hrun]
    exact ⟨hsoc, hsoh, htemp⟩

/-- Witness for C3 at the initial unit state with a large charge setpoint. -/
theorem tick_update_bounds_witness :
    (0 ≤ init_state.bat_soc ∧ init_state.bat_soc ≤ 1) ∧
    (0 ≤ (update_sensors_and_buffer 3 7 11 { init_state with power_setpoint := 5000 }).bat_soc ∧
      (update_sensors_and_buffer 3 7 11 { init_state with power_setpoint := 5000 }).bat_soc ≤ 1) := by
  refine ⟨by norm_num [init_state], ?_⟩
  exact (tick_update_bounds 3 7 11 { init_state with power_setpoint := 5000 }
    (by norm_num [init_state]) (by norm_num [init_state]) (by norm_num [init_state])).1

/-- C4: on a tick in the `STATE_RUNNING` state, a discharge setpoint (below
the −0.5 W epsilon) at SoC ≤ 2% yields effective power 0, a charge setpoint
(above +0.5 W) at SoC ≥ 98% yields effective power 0, and in the bands
(2%,10%) and (90%,98%) the effective power stored back as the setpoint is
the linear derating of the request. -/
theorem soc_power_admission (r1 r2 r3 : ℕ) (s : UState)
    (hrun : s.current_state = STATE_RUNNING) :
    (s.power_setpoint < -(1/2) ∧ s.bat_soc ≤ 2/100 →
      (update_sensors_and_buffer r1 r2 r3 s).power_setpoint = 0) ∧
    (s.power_setpoint > 1/2 ∧ s.bat_soc ≥ 98/100 →
      (update_sensors_and_buffer r1 r2 r3 s).power_setpoint = 0) ∧
    (s.power_setpoint < -(1/2) ∧ 2/100 < s.bat_soc ∧ s.bat_soc < 10/100 →
      (update_sensors_and_buffer r1 r2 r3 s).power_setpoint
        = s.power_setpoint * ((s.bat_soc - 2/100) / (8/100))) ∧
    (s.power_setpoint > 1/2 ∧ 90/100 < s.bat_soc ∧ s.bat_soc < 98/100 →
      (update_sensors_and_buffer r1 r2 r3 s).power_setpoint
        = s.power_setpoint * ((98/100 - s.bat_soc) / (8/100))) := by
  rw [update_sensors_power_running r1 r2 r3 s hrun]
  refine ⟨fun h => ?_, fun h => ?_, fun h => ?_, fun h => ?_⟩
  · exact admit_power_empty s.bat_soc s.power_setpoint h.1 h.2
  · exact admit_power_full s.bat_soc s.power_setpoint h.1 h.2
  · exact admit_power_derate_discharge s.bat_soc s.power_setpoint h.1 h.2.1 h.2.2
  · exact admit_power_derate_charge s.bat_soc s.power_setpoint h.1 h.2.1 h.2.2

/-- Witness for C4: a 5 kW discharge request at 1% SoC is forced to 0 W. -/
theorem soc_power_admission_witness :
    (update_sensors_and_buffer 0 0 0
      { init_state with bat_soc := 1/100, power_setpoint := -5000 }).power_setpoint = 0 := by
  exact (soc_power_admission 0 0 0
    { init_state with bat_soc := 1/100, power_setpoint := -5000 } rfl).1
    (by constructor <;> norm_num)

/-! ## Claim theorems: safety check (C2, C7) -/

/-- C2 counterexample: at a concrete running state (SoH 0.80, 25 °C, SoC 0.8,
0 cycles) with a healthy regression estimate, the safety check lands in the
warning-only band (no critical condition, warning SoH) and yet changes a
state variable: the authoritative SoH moves from 0.80 to 0.807. -/
theorem safety_warning_changes_soh :
    s_warn.current_state = STATE_RUNNING ∧
    ¬((check_safety 1 s_warn).1.bat_soh < s_warn.soh_critical ∨
      s_warn.bat_temp > s_warn.temp_critical) ∧
    ((check_safety 1 s_warn).1.bat_soh < s_warn.soh_warning ∨
      s_warn.bat_temp > s_warn.temp_warning ∨
      s_warn.charge_cycles > s_warn.cycles_warning) ∧
    (check_safety 1 s_warn).1.bat_soh ≠ s_warn.bat_soh := by
  simp only [check_safety_soh]
  norm_num [s_warn, init_state, filtered_soh, clamp_lo, clamp_hi]

/-- C2 amended: while `STATE_RUNNING`, if the updated SoH is below
`soh_critical` or the temperature is above `temp_critical`, the check
isolates the unit, zeroes setpoint and current and emits a push; otherwise
lifecycle, setpoint, current, SoC, temperature and cycle counter are
unchanged and no push is emitted — but SoH and capacity still receive the
low-pass health update performed at the start of every check. -/
theorem safety_check_branch_effects (predicted : ℚ) (s : UState)
    (hrun : s.current_state = STATE_RUNNING) :
    (filtered_soh predicted s < s.soh_critical ∨ s.bat_temp > s.temp_critical →
      (check_safety predicted s).1.current_state = STATE_ISOLATED ∧
      (check_safety predicted s).1.power_setpoint = 0 ∧
      (check_safety predicted s).1.bat_current = 0 ∧
      (check_safety predicted s).2 = true) ∧
    (¬(filtered_soh predicted s < s.soh_critical ∨ s.bat_temp > s.temp_critical) →
      (check_safety predicted s).1.current_state = STATE_RUNNING ∧
      (check_safety predicted s).1.power_setpoint = s.power_setpoint ∧
      (check_safety predicted s).1.bat_current = s.bat_current ∧
      (check_safety predicted s).1.bat_soc = s.bat_soc ∧
      (check_safety predicted s).1.bat_temp = s.bat_temp ∧
      (check_safety predicted s).1.charge_cycles = s.charge_cycles ∧
      (check_safety predicted s).1.bat_soh = filtered_soh predicted s ∧
      (check_safety predicted s).1.bat_capacity_ah
        = SCALED_CAPACITY_AH * filtered_soh predicted s ∧
      (check_safety predicted s).2 = false) := by
  constructor
  · intro h
    unfold check_safety
    dsimp only
    rw [if_pos h]
    exact ⟨rfl, rfl, rfl, rfl⟩
  · intro h
    unfold check_safety
    dsimp only
    rw [if_neg h]
    exact ⟨hrun, rfl, rfl, rfl, rfl, rfl, rfl, rfl, rfl⟩

/-- Witness for the amended C2: a unit at 70 °C (above the 60 °C critical
threshold) is isolated with zero setpoint and current and a push. -/
theorem safety_check_branch_effects_witness :
    (check_safety 1 s_hot).1.current_state = STATE_ISOLATED ∧
    (check_safety 1 s_hot).1.power_setpoint = 0 ∧
    (check_safety 1 s_hot).1.bat_current = 0 ∧
    (check_safety 1 s_hot).2 = true :=
  (safety_check_branch_effects 1 s_hot rfl).1 (Or.inr (by norm_num [s_hot, init_state]))

/-- C7: for every raw regression output and every unit state, the safety
check's new authoritative SoH is the low-pass filter
`0.95·SoH + 0.05·combined`, where `combined` is the spec's formula applied
to the regression output clamped to [0,100] and scaled to [0,1], and
capacity is recomputed from the new SoH. -/
theorem combined_health_formula (raw : ℚ) (s : UState) :
    (check_safety (battery_soh_regress1_output raw) s).1.bat_soh
      = (95/100) * s.bat_soh
        + (5/100) * combined_health_spec (battery_soh_regress1_output raw)
            s.bat_soh s.bat_temp s.bat_soc ∧
    (check_safety (battery_soh_regress1_output raw) s).1.bat_capacity_ah
      = SCALED_CAPACITY_AH * (check_safety (battery_soh_regress1_output raw) s).1.bat_soh := by
  constructor
  · rw [check_safety_soh]
    unfold filtered_soh combined_health_spec
    dsimp only
    rw [clamp_lo_eq_max, clamp_hi_eq_min]
    rw [max_comm, min_comm]
    split_ifs <;> ring_nf
  · rw [check_safety_capacity, check_safety_soh]

/-! ## Claim theorems: isolation latch (C1) -/

lemma power_put_state_cases (plen : ℕ) (pval : ℚ) (s : UState) :
    (res_power_put_handler plen pval s).1 = s ∨
    ((res_power_put_handler plen pval s).1.current_state = s.current_state ∧
      s.current_state = STATE_RUNNING) := by
  unfold res_power_put_handler
  split_ifs with h1 h2
  · exact Or.inl rfl
  · exact Or.inr ⟨rfl, not_ne_iff.mp h1⟩
  · exact Or.inl rfl

lemma power_put_rejected (plen : ℕ) (pval : ℚ) (s : UState)
    (h : s.current_state ≠ STATE_RUNNING) :
    res_power_put_handler plen pval s = (s, RespCode.forbidden) := by
  unfold res_power_put_handler
  rw [if_pos h]

lemma params_put_state_cases (plen : ℕ) (u : ParamsUpdate) (s : UState) :
    ((res_params_put_handler plen u s).1.current_state = s.current_state ∧
      (res_params_put_handler plen u s).1.power_setpoint = s.power_setpoint) ∨
    ((res_params_put_handler plen u s).1.current_state = STATE_ISOLATED ∧
      (res_params_put_handler plen u s).1.power_setpoint = 0) := by
  unfold res_params_put_handler apply_params_update
  dsimp only
  split_ifs
  · exact Or.inl ⟨rfl, rfl⟩
  · exact Or.inr ⟨rfl, rfl⟩
  · exact Or.inl ⟨rfl, rfl⟩

lemma step_tick_isolated (predicted : ℚ) (r1 r2 r3 : ℕ) (s : UState)
    (hiso : s.current_state = STATE_ISOLATED) :
    step (Event.tick predicted r1 r2 r3) s = s := by
  simp only [step]
  have h1 : (if s.current_state ≠ STATE_ISOLATED then update_sensors_and_buffer r1 r2 r3 s else s)
      = s := if_neg (fun h => h hiso)
  rw [h1]
  rw [if_neg (show ¬s.current_state = STATE_RUNNING by rw [hiso]; decide)]

/-- Invariant: every reachable isolated state has a zero power setpoint. -/
lemma reachable_iso_setpoint {s : UState} (hr : Reachable s) :
    s.current_state = STATE_ISOLATED → s.power_setpoint = 0 := by
  induction hr with
  | init => intro h0; exact absurd h0 (by decide)
  | next s e _ ih =>
    cases e with
    | tick predicted r1 r2 r3 =>
      by_cases hiso : s.current_state = STATE_ISOLATED
      · rw [step_tick_isolated predicted r1 r2 r3 s hiso]
        exact ih
      · intro h0
        simp only [step] at h0 ⊢
        rw [if_pos hiso] at h0 ⊢
        by_cases hrun : (update_sensors_and_buffer r1 r2 r3 s).current_state = STATE_RUNNING
        · rw [if_pos hrun] at h0 ⊢
          rcases check_safety_state_cases predicted (update_sensors_and_buffer r1 r2 r3 s) with
            h | h
          · exact h.2
          · rw [h.1, hrun] at h0
            exact absurd h0 (by decide)
        · rw [if_neg hrun] at h0 ⊢
          rw [update_sensors_state] at h0
          exact absurd h0 hiso
    | putPower plen pval =>
      intro h0
      simp only [step] at h0 ⊢
      rcases power_put_state_cases plen pval s with h | h
      · rw [h] at h0 ⊢
        exact ih h0
      · rw [h.1, h.2] at h0
        exact absurd h0 (by decide)
    | putParams plen u =>
      intro h0
      simp only [step] at h0 ⊢
      rcases params_put_state_cases plen u s with h | h
      · rw [h.1] at h0
        rw [h.2]
        exact ih h0
      · exact h.2
    | buttonReset =>
      intro h0
      simp only [step] at h0 ⊢
      by_cases hiso : s.current_state = STATE_ISOLATED
      · rw [if_pos hiso] at h0
        exact battery_state_t.noConfusion h0
      · rw [if_neg hiso] at h0 ⊢
        exact ih h0

/-- C1: in every reachable isolated state the power setpoint is 0; a tick or
a `PUT dev/power` leaves the state completely unchanged, a `PUT dev/params`
leaves the unit isolated with setpoint 0, and the local button reset is the
event that returns the lifecycle to `STATE_RUNNING`. -/
theorem isolated_latch_invariant (s : UState) (hr : Reachable s)
    (hiso : s.current_state = STATE_ISOLATED) :
    s.power_setpoint = 0 ∧
    (∀ (predicted : ℚ) (r1 r2 r3 : ℕ), step (Event.tick predicted r1 r2 r3) s = s) ∧
    (∀ (plen : ℕ) (pval : ℚ), step (Event.putPower plen pval) s = s) ∧
    (∀ (plen : ℕ) (u : ParamsUpdate),
      (step (Event.putParams plen u) s).current_state = STATE_ISOLATED ∧
      (step (Event.putParams plen u) s).power_setpoint = 0) ∧
    (step Event.buttonReset s).current_state = STATE_RUNNING := by
  refine ⟨reachable_iso_setpoint hr hiso, ?_, ?_, ?_, ?_⟩
  · intro predicted r1 r2 r3
    exact step_tick_isolated predicted r1 r2 r3 s hiso
  · intro plen pval
    simp only [step]
    rw [power_put_rejected plen pval s (by rw [hiso]; decide)]
  · intro plen u
    rcases params_put_state_cases plen u s with h | h
    · constructor
      · simp only [step]
        rw [h.1]
        exact hiso
      · simp only [step]
        rw [h.2]
        exact reachable_iso_setpoint hr hiso
    · constructor
      · simp only [step]
        exact h.1
      · simp only [step]
        exact h.2
  · simp only [step]
    rw [if_pos hiso]
    rfl

/-- Witness for C1 at the concrete reachable isolated state `s_iso`. -/
theorem isolated_latch_invariant_witness :
    s_iso.power_setpoint = 0 ∧
    (step Event.buttonReset s_iso).current_state = STATE_RUNNING := by
  have hr : Reachable s_iso :=
    Reachable.next init_state (Event.putParams 16 params_iso_only) Reachable.init
  have h := isolated_latch_invariant s_iso hr rfl
  exact ⟨h.1, h.2.2.2.2⟩

/-! ## Claim theorems: command admission (C8) -/

/-- C8: a `PUT dev/power` is rejected with forbidden and without mutation
when the unit is not `STATE_RUNNING`; rejected with bad-request and without
mutation when the payload length is invalid (empty or ≥ 32 bytes); and
otherwise answered with changed, storing the requested value clamped to
±`BAT_MAX_POWER_W`. -/
theorem power_put_cases (plen : ℕ) (pval : ℚ) (s : UState) :
    (s.current_state ≠ STATE_RUNNING →
      res_power_put_handler plen pval s = (s, RespCode.forbidden)) ∧
    (s.current_state = STATE_RUNNING → ¬(0 < plen ∧ plen < 32) →
      res_power_put_handler plen pval s = (s, RespCode.badRequest)) ∧
    (s.current_state = STATE_RUNNING → 0 < plen ∧ plen < 32 →
      (res_power_put_handler plen pval s).2 = RespCode.changed ∧
      (res_power_put_handler plen pval s).1
        = { s with power_setpoint := clamp_lo (-BAT_MAX_POWER_W) (clamp_hi BAT_MAX_POWER_W pval) }) := by
  unfold res_power_put_handler
  refine ⟨fun h => ?_, fun h1 h2 => ?_, fun h1 h2 => ?_⟩
  · rw [if_pos h]
  · rw [if_neg (not_not_intro h1), if_neg h2]
  · rw [if_neg (not_not_intro h1), if_pos h2]
    exact ⟨rfl, rfl⟩

/-- Witness for C8: forbidden at the isolated state, and a 20 kW request at
the running initial state is accepted and clamped to 10 kW. -/
theorem power_put_cases_witness :
    res_power_put_handler 4 100 s_iso = (s_iso, RespCode.forbidden) ∧
    (res_power_put_handler 5 20000 init_state).2 = RespCode.changed ∧
    (res_power_put_handler 5 20000 init_state).1.power_setpoint = 10000 := by
  refine ⟨(power_put_cases 4 100 s_iso).1 (by decide), ?_, ?_⟩
  · exact ((power_put_cases 5 20000 init_state).2.2 rfl (by norm_num)).1
  · rw [((power_put_cases 5 20000 init_state).2.2 rfl (by norm_num)).2]
    norm_num [clamp_lo, clamp_hi, BAT_MAX_POWER_W]

/-! ## Claim theorems: raw parameter overwrite (C10) -/

lemma params_put_accepted (plen : ℕ) (u : ParamsUpdate) (s : UState)
    (h1 : 0 < plen) (h2 : plen < 128) :
    res_params_put_handler plen u s = (apply_params_update u s, RespCode.changed) := by
  unfold res_params_put_handler
  rw [if_neg (by push_neg; exact ⟨Nat.pos_iff_ne_zero.mp h1, h2⟩)]

lemma apply_params_soc (u : ParamsUpdate) (s : UState) :
    (apply_params_update u s).bat_soc = u.soc.getD s.bat_soc := by
  unfold apply_params_update
  dsimp only
  split <;> rfl

lemma apply_params_soh (u : ParamsUpdate) (s : UState) :
    (apply_params_update u s).bat_soh = u.soh.getD s.bat_soh := by
  unfold apply_params_update
  dsimp only
  split <;> rfl

lemma apply_params_temp (u : ParamsUpdate) (s : UState) :
    (apply_params_update u s).bat_temp = u.temp.getD s.bat_temp := by
  unfold apply_params_update
  dsimp only
  split <;> rfl

lemma apply_params_capacity (u : ParamsUpdate) (s : UState) :
    (apply_params_update u s).bat_capacity_ah = u.capacity_ah.getD s.bat_capacity_ah := by
  unfold apply_params_update
  dsimp only
  split <;> rfl

lemma update_sensors_soc_bounds_running (r1 r2 r3 : ℕ) (s : UState)
    (hrun : s.current_state = STATE_RUNNING) :
    0 ≤ (update_sensors_and_buffer r1 r2 r3 s).bat_soc ∧
      (update_sensors_and_buffer r1 r2 r3 s).bat_soc ≤ 1 := by
  unfold update_sensors_and_buffer
  rw [if_pos hrun]
  exact physical_update_soc_bounds r1 r2 r3 s

lemma update_sensors_soh_bounds_running (r1 r2 r3 : ℕ) (s : UState)
    (hrun : s.current_state = STATE_RUNNING) :
    1/2 ≤ (update_sensors_and_buffer r1 r2 r3 s).bat_soh ∧
      (update_sensors_and_buffer r1 r2 r3 s).bat_soh ≤ 1 := by
  unfold update_sensors_and_buffer
  rw [if_pos hrun]
  exact physical_update_soh_bounds r1 r2 r3 s

lemma step_tick_running (predicted : ℚ) (r1 r2 r3 : ℕ) (s2 : UState)
    (hrun : s2.current_state = STATE_RUNNING) :
    step (Event.tick predicted r1 r2 r3) s2
      = (check_safety predicted (update_sensors_and_buffer r1 r2 r3 s2)).1 := by
  simp only [step]
  have hne : s2.current_state ≠ STATE_ISOLATED := by rw [hrun]; decide
  rw [if_pos hne, update_sensors_state, if_pos hrun]

/-- C10: a `PUT dev/params` with a well-sized payload answers changed and
overwrites `bat_soc`, `bat_soh`, `bat_temp` and `bat_capacity_ah` with the
parsed values, with no range clamping and in every lifecycle state; a
subsequent tick in the running state clamps SoC back into [0,1] and SoH back
into [0.5,1]. -/
theorem params_put_overwrites (plen : ℕ) (u : ParamsUpdate) (s : UState)
    (h1 : 0 < plen) (h2 : plen < 128) :
    (res_params_put_handler plen u s).2 = RespCode.changed ∧
    (∀ v : ℚ, u.soc = some v → (res_params_put_handler plen u s).1.bat_soc = v) ∧
    (∀ v : ℚ, u.soh = some v → (res_params_put_handler plen u s).1.bat_soh = v) ∧
    (∀ v : ℚ, u.temp = some v → (res_params_put_handler plen u s).1.bat_temp = v) ∧
    (∀ v : ℚ, u.capacity_ah = some v →
      (res_params_put_handler plen u s).1.bat_capacity_ah = v) ∧
    (∀ (predicted : ℚ) (r1 r2 r3 : ℕ) (s2 : UState), s2.current_state = STATE_RUNNING →
      (0 ≤ (step (Event.tick predicted r1 r2 r3) s2).bat_soc ∧
        (step (Event.tick predicted r1 r2 r3) s2).bat_soc ≤ 1) ∧
      (1/2 ≤ (step (Event.tick predicted r1 r2 r3) s2).bat_soh ∧
        (step (Event.tick predicted r1 r2 r3) s2).bat_soh ≤ 1)) := by
  rw [params_put_accepted plen u s h1 h2]
  refine ⟨rfl, ?_, ?_, ?_, ?_, ?_⟩
  · intro v hv
    rw [show (apply_params_update u s, RespCode.changed).1 = apply_params_update u s from rfl,
      apply_params_soc, hv]
    rfl
  · intro v hv
    rw [show (apply_params_update u s, RespCode.changed).1 = apply_params_update u s from rfl,
      apply_params_soh, hv]
    rfl
  · intro v hv
    rw [show (apply_params_update u s, RespCode.changed).1 = apply_params_update u s from rfl,
      apply_params_temp, hv]
    rfl
  · intro v hv
    rw [show (apply_params_update u s, RespCode.changed).1 = apply_params_update u s from rfl,
      apply_params_capacity, hv]
    rfl
  · intro predicted r1 r2 r3 s2 hrun
    rw [step_tick_running predicted r1 r2 r3 s2 hrun]
    constructor
    · rw [check_safety_soc]
      exact update_sensors_soc_bounds_running r1 r2 r3 s2 hrun
    · rw [check_safety_soh]
      exact filtered_soh_bounds predicted _ (update_sensors_soh_bounds_running r1 r2 r3 s2 hrun)

/-- Witness for C10: one well-sized request sets SoC to 5 (outside [0,1])
and SoH to 2 (outside [0.5,1]) on the isolated unit, answered with changed. -/
theorem params_put_overwrites_witness :
    (res_params_put_handler 20 { params_iso_only with state_iso := false, soc := some 5, soh := some 2 } s_iso).2
      = RespCode.changed ∧
    (res_params_put_handler 20 { params_iso_only with state_iso := false, soc := some 5, soh := some 2 } s_iso).1.bat_soc
      = 5 ∧
    (res_params_put_handler 20 { params_iso_only with state_iso := false, soc := some 5, soh := some 2 } s_iso).1.bat_soh
      = 2 := by
  have h := params_put_overwrites 20
    { params_iso_only with state_iso := false, soc := some 5, soh := some 2 } s_iso
    (by norm_num) (by norm_num)
  exact ⟨h.1, h.2.1 5 rfl, h.2.2.1 2 rfl⟩

/-! ## Claim theorems: registration (C9) -/

/-- C9: registration with a non-full registry appends one default entry
(`INI` state, SoC 0.5, zero power, active, no objective) and answers
created, leaving the existing entries in place; with a full registry it
answers service-unavailable and leaves the registry unchanged. -/
theorem registration_cases (now ip : ℕ) (bats : List battery_node_t) :
    (bats.length < MAX_BATTERIES →
      res_reg_h now ip bats = (bats ++ [reg_default_entry now ip], RespCode.created) ∧
      (reg_default_entry now ip).state = "INI" ∧
      (reg_default_entry now ip).current_soc = 1/2 ∧
      (reg_default_entry now ip).optimal_u = 0 ∧
      (reg_default_entry now ip).actual_power = 0 ∧
      (reg_default_entry now ip).active = true ∧
      (reg_default_entry now ip).has_objective = false ∧
      (bats ++ [reg_default_entry now ip]).take bats.length = bats) ∧
    (¬bats.length < MAX_BATTERIES →
      res_reg_h now ip bats = (bats, RespCode.serviceUnavailable)) := by
  constructor
  · intro h
    unfold res_reg_h
    rw [if_pos h]
    exact ⟨rfl, rfl, rfl, rfl, rfl, rfl, rfl, List.take_left bats [reg_default_entry now ip]⟩
  · intro h
    unfold res_reg_h
    rw [if_neg h]

/-- Witness for C9: an empty registry accepts, a full (5-entry) registry
rejects unchanged. -/
theorem registration_cases_witness :
    res_reg_h 3 42 [] = ([reg_default_entry 3 42], RespCode.created) ∧
    res_reg_h 9 43 (List.replicate 5 (reg_default_entry 0 0))
      = (List.replicate 5 (reg_default_entry 0 0), RespCode.serviceUnavailable) := by
  constructor
  · exact ((registration_cases 3 42 []).1 (by decide)).1
  · exact (registration_cases 9 43 (List.replicate 5 (reg_default_entry 0 0))).2 (by decide)

/-! ## Claim theorems: fleet optimizer (C5, C6) -/

lemma pgd_update_skip (p : MpcParams) (b : battery_node_t)
    (h : ¬(b.active = true ∧ ¬b.state = "ISO" ∧ b.has_objective = false)) :
    pgd_update p b = b := by
  unfold pgd_update
  split_ifs with h1 h2 h3
  · rfl
  · rfl
  · rfl
  · exact absurd ⟨by simpa using h1, h2, by simpa using h3⟩ h

lemma pgd_update_go (p : MpcParams) (b : battery_node_t)
    (h1 : b.active = true) (h2 : ¬b.state = "ISO") (h3 : b.has_objective = false) :
    pgd_update p b = { b with optimal_u := pgd_u_step p b.current_soc b.optimal_u } := by
  unfold pgd_update pgd_u_step
  rw [if_neg (by rw [h1]; decide), if_neg h2, if_neg (by rw [h3]; decide)]

lemma pgd_update_iterate (p : MpcParams) (n : ℕ) (b : battery_node_t) :
    (pgd_update p)^[n] b =
      if b.active = true ∧ ¬b.state = "ISO" ∧ b.has_objective = false
      then { b with optimal_u := (pgd_u_step p b.current_soc)^[n] b.optimal_u }
      else b := by
  induction n with
  | zero =>
    simp only [Function.iterate_zero, id]
    split <;> rfl
  | succ n ih =>
    rw [Function.iterate_succ_apply', ih]
    by_cases hc : b.active = true ∧ ¬b.state = "ISO" ∧ b.has_objective = false
    · rw [if_pos hc, if_pos hc]
      rw [pgd_update_go p { b with optimal_u := (pgd_u_step p b.current_soc)^[n] b.optimal_u }
        hc.1 hc.2.1 hc.2.2]
      rw [Function.iterate_succ_apply']
    · rw [if_neg hc, if_neg hc, pgd_update_skip p b hc]

lemma pgd_iter_iterate (p : MpcParams) (n : ℕ) (bs : List battery_node_t) :
    (pgd_iter p)^[n] bs = bs.map ((pgd_update p)^[n]) := by
  induction n with
  | zero => simp
  | succ n ih =>
    rw [Function.iterate_succ_apply', ih]
    unfold pgd_iter
    rw [List.map_map]
    congr 1
    funext b
    exact (Function.iterate_succ_apply' (pgd_update p) n b).symm

lemma run_mpc_map (p : MpcParams) (bs : List battery_node_t) :
    run_mpc p bs = bs.map ((pgd_update p)^[PGD_ITERATIONS] ∘ mpc_preset) := by
  unfold run_mpc
  rw [pgd_iter_iterate, List.map_map]

/-- C6: the optimizer runs exactly `PGD_ITERATIONS` = 100 fleet-wide gradient
iterations after the objective presets (no convergence-based early exit); an
active, non-isolated, non-overridden unit's `optimal_u` undergoes exactly 100
applications of the projected step
`u ← clip(u − lr·(alpha·price + 2·beta·u + 2·gamma·k·(soc + k·u − soc_ref)))`;
isolated or overridden units are untouched by every iteration. -/
theorem pgd_fixed_iterations (p : MpcParams) (bs : List battery_node_t) :
    PGD_ITERATIONS = 100 ∧
    run_mpc p bs = bs.map ((pgd_update p)^[PGD_ITERATIONS] ∘ mpc_preset) ∧
    (∀ b : battery_node_t, b.active = true → ¬b.state = "ISO" → b.has_objective = false →
      (pgd_update p)^[PGD_ITERATIONS] b
        = { b with optimal_u := (pgd_u_step p b.current_soc)^[PGD_ITERATIONS] b.optimal_u }) ∧
    (∀ (n : ℕ) (b : battery_node_t), b.state = "ISO" ∨ b.has_objective = true →
      (pgd_update p)^[n] b = b) := by
  refine ⟨rfl, run_mpc_map p bs, ?_, ?_⟩
  · intro b h1 h2 h3
    rw [pgd_update_iterate, if_pos ⟨h1, h2, h3⟩]
  · intro n b h
    rw [pgd_update_iterate, if_neg ?_]
    rintro ⟨-, hni, hno⟩
    rcases h with h | h
    · exact hni h
    · rw [h] at hno
      cases hno

/-- Witness for C6: the overridden entry `b_obj` is untouched by 5 iterations. -/
theorem pgd_fixed_iterations_witness :
    (pgd_update p_c)^[5] b_obj = b_obj :=
  (pgd_fixed_iterations p_c []).2.2.2 5 b_obj (Or.inr rfl)

/-- C5 counterexample: `b_obj` is active with a manual objective of 3 kW and
stored `optimal_u` = 1 kW; one optimizer cycle rewrites its `optimal_u` to
the objective value 3, so the optimizer cycle does not leave `optimal_u`
unchanged. -/
theorem mpc_overwrites_objective_optimal_u :
    b_obj.optimal_u = 1 ∧
    (run_mpc p_c [b_obj]).map battery_node_t.optimal_u = [3] := by
  refine ⟨rfl, ?_⟩
  rw [run_mpc_map]
  have hpre : mpc_preset b_obj = { b_obj with optimal_u := b_obj.objective_power } := by
    unfold mpc_preset
    rw [if_pos ⟨rfl, rfl⟩]
  have hskip : (pgd_update p_c)^[PGD_ITERATIONS] { b_obj with optimal_u := b_obj.objective_power }
      = { b_obj with optimal_u := b_obj.objective_power } := by
    rw [pgd_update_iterate]
    rw [if_neg ?_]
    rintro ⟨-, -, hno⟩
    dsimp only at hno
    exact absurd hno (by decide)
  simp only [List.map_cons, List.map_nil, Function.comp_apply, hpre, hskip]
  rfl

/-- C5 amended: for every active registry entry with a manual objective, one
optimizer cycle sets its `optimal_u` to the stored objective power (the
gradient iterations never touch it), and — when the entry is not isolated —
the dispatched command equals the stored objective power. -/
theorem objective_override_dispatch (p : MpcParams) (bs : List battery_node_t)
    (i : Fin bs.length)
    (hact : (bs.get i).active = true) (hobj : (bs.get i).has_objective = true) :
    ∀ hlen : i.val < (run_mpc p bs).length,
      ((run_mpc p bs).get ⟨i.val, hlen⟩).optimal_u = (bs.get i).objective_power ∧
      (¬(bs.get i).state = "ISO" →
        dispatch_cmd ((run_mpc p bs).get ⟨i.val, hlen⟩) = some ((bs.get i).objective_power)) := by
  intro hlen
  have hfun : (pgd_update p)^[PGD_ITERATIONS] (mpc_preset (bs.get i))
      = { bs.get i with optimal_u := (bs.get i).objective_power } := by
    have hpre : mpc_preset (bs.get i)
        = { bs.get i with optimal_u := (bs.get i).objective_power } := by
      unfold mpc_preset
      rw [if_pos ⟨hact, hobj⟩]
    rw [hpre, pgd_update_iterate]
    rw [if_neg ?_]
    rintro ⟨-, -, hno⟩
    dsimp only at hno
    rw [hobj] at hno
    cases hno
  have hget : (run_mpc p bs).get ⟨i.val, hlen⟩
      = { bs.get i with optimal_u := (bs.get i).objective_power } := by
    rw [List.get_of_eq (run_mpc_map p bs) ⟨i.val, hlen⟩, ← hfun]
    simp [List.get_eq_getElem, List.getElem_map]
  refine ⟨by rw [hget], fun hni => ?_⟩
  rw [hget]
  unfold dispatch_cmd
  dsimp only
  rw [if_neg (by rw [hact]; decide), if_neg hni, if_pos hobj]

/-- Witness for the amended C5 on the singleton fleet `[b_obj]`. -/
theorem objective_override_dispatch_witness :
    ((run_mpc p_c [b_obj]).get ⟨0, by rw [run_mpc_map]; decide⟩).optimal_u = 3 ∧
    dispatch_cmd ((run_mpc p_c [b_obj]).get ⟨0, by rw [run_mpc_map]; decide⟩) = some 3 := by
  have h := objective_override_dispatch p_c [b_obj] ⟨0, by decide⟩ rfl rfl
    (by rw [run_mpc_map]; decide)
  exact ⟨h.1, h.2 (by decide)⟩

end SmartLBSS
